import Mathlib

/-!
Verification development for the outreach sequencing and lead-lifecycle
engine of the sdr-app repository, against its natural-language spec.

The relevant Python code is shallowly embedded as Lean definitions:

* `ICPTrackingRecord` and the operations `update_progress`, `set_error`,
  `clear_error`, `reset_daily_counts` embed `ICPTrackingRepository`
  (src/app/repositories/icp.py) over rows shaped as in
  src/app/models/icp_tracking.py.  Python `int` is embedded as `Int`,
  timestamps as `Int` minutes, nullable columns as `Option`.
* `CampaignSequenceStep`, `get_step`, `get_next_step`,
  `create_sequence_step` embed `CampaignSequenceRepository`
  (src/app/repositories/campaign_sequence.py) and the
  `create_sequence_step` endpoint (src/app/api/v1/campaigns.py).
* `LeadRecord`, `LeadUpdateData`, `leadUpdateApply`, `update_lead`,
  `can_re_engage`, `increment_meetings_booked` embed the lead row
  (src/app/models/lead.py together with the supabase-facing keys of
  src/app/schemas/lead.py), `LeadRepository.update` /
  `LeadRepository.increment_metric` (src/app/repositories/lead.py) and
  the PATCH lead endpoint (src/app/api/v1/leads.py).  Pydantic
  `model_dump(exclude_none=True)` followed by a row update is embedded
  as field-wise `Option.getD`: supplied (`some`) fields overwrite, `none`
  fields are left unchanged.
-/

/-- Row of the `icp_tracking` table (src/app/models/icp_tracking.py),
restricted to the columns the tracking operations read or write. -/
structure ICPTrackingRecord where
  current_page : Int
  total_pages : Option Int
  total_leads_fetched : Int
  daily_leads_fetched : Int
  status : String
  error_message : Option String
  last_error_at : Option Int
  last_fetched_at : Option Int
  last_daily_reset_at : Option Int
  deriving Repr, DecidableEq

/-- Payload of `ICPTrackingProgress` (src/app/schemas/icp.py):
`current_page : int`, `leads_fetched : int`, `total_pages : Optional[int]`.
No schema validator constrains `current_page` against the stored page. -/
structure ICPTrackingProgress where
  current_page : Int
  leads_fetched : Int
  total_pages : Option Int
  deriving Repr, DecidableEq

/-- Column defaults of a freshly created tracking row
(src/app/models/icp_tracking.py): `current_page=1`, counters 0,
`status="active"`, everything nullable absent. -/
def newTracking : ICPTrackingRecord :=
  { current_page := 1
    total_pages := none
    total_leads_fetched := 0
    daily_leads_fetched := 0
    status := "active"
    error_message := none
    last_error_at := none
    last_fetched_at := none
    last_daily_reset_at := none }

/-- Embeds `ICPTrackingRepository.update_progress`
(src/app/repositories/icp.py lines 190-211).  It unconditionally writes
`current_page := progress.current_page`, adds `progress.leads_fetched` to
both counters, stamps `last_fetched_at`, stores `progress.total_pages`
when it is truthy (Python `if progress.total_pages:`), and sets
`status := "completed"` when `progress.total_pages` is truthy and
`progress.current_page >= progress.total_pages`.  The stored
`total_pages` of the record is never consulted, and there is no
monotonicity check on the page. -/
def update_progress (record : ICPTrackingRecord) (progress : ICPTrackingProgress)
    (now : Int) : ICPTrackingRecord :=
  let base : ICPTrackingRecord :=
    { record with
      current_page := progress.current_page
      total_leads_fetched := record.total_leads_fetched + progress.leads_fetched
      daily_leads_fetched := record.daily_leads_fetched + progress.leads_fetched
      last_fetched_at := some now }
  match progress.total_pages with
  | none => base
  | some tp =>
      if tp = 0 then base
      else
        let upd : ICPTrackingRecord := { base with total_pages := some tp }
        if tp ≤ progress.current_page then { upd with status := "completed" }
        else upd

/-- Embeds `ICPTrackingRepository.set_error`
(src/app/repositories/icp.py lines 213-220): writes only `status`,
`error_message`, `last_error_at`. -/
def set_error (record : ICPTrackingRecord) (msg : String) (now : Int) :
    ICPTrackingRecord :=
  { record with
    status := "failed"
    error_message := some msg
    last_error_at := some now }

/-- Embeds `ICPTrackingRepository.clear_error`
(src/app/repositories/icp.py lines 222-229): writes only `status`,
`error_message`, `last_error_at`. -/
def clear_error (record : ICPTrackingRecord) : ICPTrackingRecord :=
  { record with
    status := "active"
    error_message := none
    last_error_at := none }

/-- Filter of `ICPTrackingRepository.reset_daily_counts`
(src/app/repositories/icp.py lines 241-253): a row matches when
`last_daily_reset_at` is null or earlier than `now` minus 24 hours
(1440 minutes). -/
def needsDailyReset (now : Int) (record : ICPTrackingRecord) : Bool :=
  match record.last_daily_reset_at with
  | none => true
  | some t => t < now - 1440

/-- Effect of `reset_daily_counts` on a single row: matching rows get
`daily_leads_fetched := 0` and `last_daily_reset_at := now`; other rows
are untouched. -/
def resetDailyOne (now : Int) (record : ICPTrackingRecord) : ICPTrackingRecord :=
  if needsDailyReset now record then
    { record with daily_leads_fetched := 0, last_daily_reset_at := some now }
  else record

/-- Embeds `ICPTrackingRepository.reset_daily_counts` over the whole
table: the filtered update applies `resetDailyOne` to every row. -/
def reset_daily_counts (now : Int) (records : List ICPTrackingRecord) :
    List ICPTrackingRecord :=
  records.map (resetDailyOne now)

/-! ### Claim C1 -/

/-- Tracker sitting at page 5; used to exhibit a backwards progress update. -/
def trackerAtPage5 : ICPTrackingRecord :=
  { newTracking with
    current_page := 5
    total_pages := some 10
    total_leads_fetched := 50
    daily_leads_fetched := 5 }

/-- C1 counterexample: a progress update whose `current_page = 3` is
strictly below the stored page 5 does not fail — `update_progress` has no
error path — and it moves `current_page` backwards to 3, so the stored
page is not non-decreasing and the tracker is changed rather than left
unchanged. -/
theorem C1_counterexample :
    (update_progress trackerAtPage5 ⟨3, 10, none⟩ 1000).current_page = 3 ∧
    (update_progress trackerAtPage5 ⟨3, 10, none⟩ 1000).current_page <
      trackerAtPage5.current_page ∧
    update_progress trackerAtPage5 ⟨3, 10, none⟩ 1000 ≠ trackerAtPage5 := by
  decide

/-- C1 amended: `update_progress` performs no monotonicity check at all;
for every tracker and every supplied progress payload it succeeds and
sets `current_page` to the supplied value, even when that value is lower
than the stored one. -/
theorem C1_update_progress_sets_page_unconditionally
    (record : ICPTrackingRecord) (progress : ICPTrackingProgress) (now : Int) :
    (update_progress record progress now).current_page = progress.current_page := by
  unfold update_progress
  cases hp : progress.total_pages with
  | none => rfl
  | some tp =>
      by_cases h0 : tp = 0 <;> by_cases hle : tp ≤ progress.current_page <;>
        simp [h0, hle]

/-! ### Claim C2 -/

/-- Tracker with stored `total_pages = 5` and `current_page = 4`,
matching the spec scenario for C2. -/
def trackerNearEnd : ICPTrackingRecord :=
  { newTracking with
    current_page := 4
    total_pages := some 5
    total_leads_fetched := 40 }

/-- C2 counterexample: the spec scenario — stored `total_pages = 5`,
`current_page = 4`, then `advance(fetchedCount=10, newCurrentPage=5)`
without a new `total_pages` — does not complete the tracker: the
completion check reads only the `total_pages` supplied in the call, never
the stored one, so `status` stays `"active"` even though
`total_leads_fetched` does increase by 10 and `current_page` becomes 5. -/
theorem C2_counterexample :
    (update_progress trackerNearEnd ⟨5, 10, none⟩ 1000).status = "active" ∧
    (update_progress trackerNearEnd ⟨5, 10, none⟩ 1000).status ≠ "completed" ∧
    (update_progress trackerNearEnd ⟨5, 10, none⟩ 1000).total_leads_fetched = 50 ∧
    (update_progress trackerNearEnd ⟨5, 10, none⟩ 1000).current_page = 5 := by
  decide

/-- C2 amended: `update_progress` adds the fetched count to both
counters, sets `current_page` to the supplied page, stores a supplied
nonzero `total_pages`, and sets `status` to `completed` exactly when the
call itself supplies a nonzero `total_pages` that the supplied page has
reached — the stored `total_pages` is never consulted for completion
(otherwise the status is left unchanged). -/
theorem C2_update_progress_characterization
    (record : ICPTrackingRecord) (progress : ICPTrackingProgress) (now : Int) :
    (update_progress record progress now).total_leads_fetched =
      record.total_leads_fetched + progress.leads_fetched ∧
    (update_progress record progress now).daily_leads_fetched =
      record.daily_leads_fetched + progress.leads_fetched ∧
    (update_progress record progress now).current_page = progress.current_page ∧
    (update_progress record progress now).total_pages =
      (match progress.total_pages with
        | some tp => if tp = 0 then record.total_pages else some tp
        | none => record.total_pages) ∧
    ((update_progress record progress now).status = "completed" ↔
      ((∃ tp, progress.total_pages = some tp ∧ tp ≠ 0 ∧
          tp ≤ progress.current_page) ∨ record.status = "completed")) := by
  unfold update_progress
  cases hp : progress.total_pages with
  | none => simp
  | some tp =>
      by_cases h0 : tp = 0 <;> by_cases hle : tp ≤ progress.current_page <;>
        simp [h0, hle]

/-! ### Claim C9 -/

/-- C9: `set_error` moves the tracker to `failed` and records the message
and timestamp while leaving `current_page`, `total_pages` and both
fetched counters untouched; `clear_error` moves it back to `active` and
clears both error fields, likewise leaving the page position and
counters untouched, so a failed tracker resumes from where it stopped. -/
theorem C9_set_and_clear_error_preserve_position
    (record : ICPTrackingRecord) (msg : String) (now : Int) :
    (set_error record msg now).status = "failed" ∧
    (set_error record msg now).error_message = some msg ∧
    (set_error record msg now).last_error_at = some now ∧
    (set_error record msg now).current_page = record.current_page ∧
    (set_error record msg now).total_pages = record.total_pages ∧
    (set_error record msg now).total_leads_fetched = record.total_leads_fetched ∧
    (set_error record msg now).daily_leads_fetched = record.daily_leads_fetched ∧
    (clear_error record).status = "active" ∧
    (clear_error record).error_message = none ∧
    (clear_error record).last_error_at = none ∧
    (clear_error record).current_page = record.current_page ∧
    (clear_error record).total_pages = record.total_pages ∧
    (clear_error record).total_leads_fetched = record.total_leads_fetched ∧
    (clear_error record).daily_leads_fetched = record.daily_leads_fetched := by
  simp [set_error, clear_error]

/-! ### Claim C8 -/

/-- C8: a daily-counter reset at time `now` zeroes `daily_leads_fetched`
and stamps `last_daily_reset_at := now` exactly on the rows whose
`last_daily_reset_at` is null or older than 24 hours, and leaves every
other row untouched; a second run at any `now2` within the same 24-hour
window leaves every row that the first run reset in the same state, and
when the first run reset every row the whole second sweep is the
identity (idempotence). -/
theorem C8_reset_daily_counts_idempotent
    (now now2 : Int) (records : List ICPTrackingRecord)
    (h1 : now ≤ now2) (h2 : now2 < now + 1440) :
    (∀ r ∈ records, needsDailyReset now r = true →
      resetDailyOne now r =
        { r with daily_leads_fetched := 0, last_daily_reset_at := some now }) ∧
    (∀ r ∈ records, needsDailyReset now r = false → resetDailyOne now r = r) ∧
    (∀ r ∈ records, needsDailyReset now r = true →
      resetDailyOne now2 (resetDailyOne now r) = resetDailyOne now r) ∧
    ((∀ r ∈ records, needsDailyReset now r = true) →
      reset_daily_counts now2 (reset_daily_counts now records) =
        reset_daily_counts now records) := by
  have hone : ∀ r : ICPTrackingRecord, needsDailyReset now r = true →
      resetDailyOne now2 (resetDailyOne now r) = resetDailyOne now r := by
    intro r hr
    have hreset : resetDailyOne now r =
        { r with daily_leads_fetched := 0, last_daily_reset_at := some now } := by
      simp [resetDailyOne, hr]
    rw [hreset]
    have hnot : needsDailyReset now2
        { r with daily_leads_fetched := 0, last_daily_reset_at := some now }
          = false := by
      simp [needsDailyReset]
      omega
    simp [resetDailyOne, hnot]
  refine ⟨?_, ?_, ?_, ?_⟩
  · intro r _ hr
    simp [resetDailyOne, hr]
  · intro r _ hr
    simp [resetDailyOne, hr]
  · intro r hrmem hr
    exact hone r hr
  · intro hall
    unfold reset_daily_counts
    rw [List.map_map]
    refine List.map_congr_left ?_
    intro r hrmem
    exact hone r (hall r hrmem)

/-- C8 witness: a fresh tracker (null `last_daily_reset_at`) is reset at
time 2000, and a second sweep at time 2500 — inside the same 24-hour
window — leaves the table unchanged. -/
theorem C8_reset_daily_counts_idempotent_witness :
    reset_daily_counts 2500 (reset_daily_counts 2000 [newTracking]) =
      reset_daily_counts 2000 [newTracking] :=
  (C8_reset_daily_counts_idempotent 2000 2500 [newTracking]
      (by decide) (by decide)).2.2.2 (by decide)

/-! ### Campaign sequence steps -/

/-- Row of the `campaign_sequences` table
(src/app/models/campaign_sequence.py, src/app/schemas/campaign_sequence.py),
restricted to the columns `get_next_step` and the duplicate check read:
`step_number`, `step_type`, `is_active`. -/
structure CampaignSequenceStep where
  step_number : Int
  step_type : String
  is_active : Bool
  deriving Repr, DecidableEq

/-- Embeds `CampaignSequenceRepository.get_step`
(src/app/repositories/campaign_sequence.py lines 56-67): first row of the
campaign whose `step_number` equals the given number. -/
def get_step (steps : List CampaignSequenceStep) (n : Int) :
    Option CampaignSequenceStep :=
  steps.find? (fun s => s.step_number == n)

/-- Scanner for a `order by step_number limit 1` query: keeps the row
with the smallest `step_number` seen so far (the earliest row on ties). -/
def pickMinStep :
    Option CampaignSequenceStep → List CampaignSequenceStep →
      Option CampaignSequenceStep
  | acc, [] => acc
  | none, s :: rest => pickMinStep (some s) rest
  | some b, s :: rest =>
      pickMinStep (some (if s.step_number < b.step_number then s else b)) rest

/-- Embeds `CampaignSequenceRepository.get_next_step`
(src/app/repositories/campaign_sequence.py lines 69-83): among the
campaign's rows with `is_active = true` and `step_number > current_step`,
the one with the smallest `step_number` (none when there is no such row). -/
def get_next_step (steps : List CampaignSequenceStep) (current_step : Int) :
    Option CampaignSequenceStep :=
  pickMinStep none
    (steps.filter (fun s => s.is_active && decide (current_step < s.step_number)))

/-- Embeds the `create_sequence_step` endpoint
(src/app/api/v1/campaigns.py lines 320-351) at the level of one
campaign's step list: if a row with the requested `step_number` already
exists the request is rejected with HTTP 400 and nothing is inserted;
otherwise the new row is inserted. -/
def create_sequence_step (steps : List CampaignSequenceStep)
    (data : CampaignSequenceStep) :
    Except Nat (List CampaignSequenceStep) :=
  match get_step steps data.step_number with
  | some _ => .error 400
  | none => .ok (steps ++ [data])

lemma pickMinStep_eq_none_iff (l : List CampaignSequenceStep)
    (acc : Option CampaignSequenceStep) :
    pickMinStep acc l = none ↔ acc = none ∧ l = [] := by
  induction l generalizing acc with
  | nil => cases acc <;> simp [pickMinStep]
  | cons s rest ih =>
      cases acc with
      | none => simp [pickMinStep, ih]
      | some b => simp [pickMinStep, ih]

lemma pickMinStep_mem (l : List CampaignSequenceStep)
    (acc : Option CampaignSequenceStep) (s : CampaignSequenceStep)
    (h : pickMinStep acc l = some s) : acc = some s ∨ s ∈ l := by
  induction l generalizing acc with
  | nil =>
      left
      cases acc with
      | none => simp [pickMinStep] at h
      | some b => simpa [pickMinStep] using h
  | cons t rest ih =>
      cases acc with
      | none =>
          rcases ih (some t) h with h' | h'
          · right; simp at h'; simp [h']
          · right; simp [h']
      | some b =>
          rcases ih _ h with h' | h'
          · by_cases hlt : t.step_number < b.step_number
            · right
              simp [hlt] at h'
              simp [h']
            · left
              simpa [hlt] using h'
          · right; simp [h']

lemma pickMinStep_min (l : List CampaignSequenceStep)
    (acc : Option CampaignSequenceStep) (s : CampaignSequenceStep)
    (h : pickMinStep acc l = some s) :
    (∀ b, acc = some b → s.step_number ≤ b.step_number) ∧
      ∀ t ∈ l, s.step_number ≤ t.step_number := by
  induction l generalizing acc with
  | nil =>
      cases acc with
      | none => simp [pickMinStep] at h
      | some b =>
          simp [pickMinStep] at h
          subst h
          simp
  | cons t rest ih =>
      cases acc with
      | none =>
          have ⟨hacc, hrest⟩ := ih (some t) h
          refine ⟨by simp, ?_⟩
          intro u hu
          rcases List.mem_cons.mp hu with rfl | hu'
          · exact hacc u rfl
          · exact hrest u hu'
      | some b =>
          have ⟨hacc, hrest⟩ := ih _ h
          by_cases hlt : t.step_number < b.step_number
          · have hs : s.step_number ≤ t.step_number := by
              have := hacc t (by simp [hlt])
              simpa using this
            refine ⟨?_, ?_⟩
            · intro c hc
              cases hc
              omega
            · intro u hu
              rcases List.mem_cons.mp hu with rfl | hu'
              · exact hs
              · exact hrest u hu'
          · have hs : s.step_number ≤ b.step_number := by
              have := hacc b (by simp [hlt])
              simpa using this
            refine ⟨?_, ?_⟩
            · intro c hc
              cases hc
              exact hs
            · intro u hu
              rcases List.mem_cons.mp hu with rfl | hu'
              · omega
              · exact hrest u hu'

/-! ### Claim C7 -/

/-- C7: `get_next_step` returns a step of the campaign that is active and
strictly beyond the current step, with the smallest such `step_number`
(so with unique step numbers it is the step the claim names); it returns
nothing exactly when no active step lies strictly beyond the current
step. -/
theorem C7_get_next_step_selects_least_active
    (steps : List CampaignSequenceStep) (current_step : Int) :
    (∀ s, get_next_step steps current_step = some s →
      s ∈ steps ∧ s.is_active = true ∧ current_step < s.step_number ∧
        ∀ t ∈ steps, t.is_active = true → current_step < t.step_number →
          s.step_number ≤ t.step_number) ∧
    (get_next_step steps current_step = none ↔
      ∀ t ∈ steps, t.is_active = true → ¬ current_step < t.step_number) := by
  constructor
  · intro s hs
    have hmem : s ∈ steps.filter
        (fun s => s.is_active && decide (current_step < s.step_number)) := by
      rcases pickMinStep_mem _ _ _ hs with h' | h'
      · cases h'
      · exact h'
    have hprops := List.mem_filter.mp hmem
    have hact : s.is_active = true ∧ current_step < s.step_number := by
      have := hprops.2
      simp at this
      exact this
    refine ⟨hprops.1, hact.1, hact.2, ?_⟩
    intro t ht htact htgt
    have htfil : t ∈ steps.filter
        (fun s => s.is_active && decide (current_step < s.step_number)) := by
      simp [List.mem_filter, ht, htact, htgt]
    exact (pickMinStep_min _ _ _ hs).2 t htfil
  · unfold get_next_step
    rw [pickMinStep_eq_none_iff]
    simp [List.filter_eq_nil_iff]

/-- Three-step campaign used to instantiate C7: step 1 inactive, steps 2
and 3 active. -/
def demoSteps : List CampaignSequenceStep :=
  [⟨1, "email", false⟩, ⟨3, "email", true⟩, ⟨2, "call", true⟩]

/-- C7 witness: on the demo campaign with current step 1, the selected
next step is the active step numbered 2 — it belongs to the campaign, is
active and strictly beyond the current step. -/
theorem C7_get_next_step_selects_least_active_witness :
    (⟨2, "call", true⟩ : CampaignSequenceStep) ∈ demoSteps ∧
    (⟨2, "call", true⟩ : CampaignSequenceStep).is_active = true ∧
    (1 : Int) < (⟨2, "call", true⟩ : CampaignSequenceStep).step_number :=
  have h := (C7_get_next_step_selects_least_active demoSteps 1).1
    ⟨2, "call", true⟩ (by decide)
  ⟨h.1, h.2.1, h.2.2.1⟩

/-! ### Claim C10 -/

/-- C10: creating a step whose `step_number` already occurs in the
campaign is rejected with HTTP 400 and the step list is unchanged;
creation succeeds exactly for step numbers not already present, appending
the new row, and therefore preserves uniqueness of `step_number` within
the campaign. -/
theorem C10_create_sequence_step_rejects_duplicates
    (steps : List CampaignSequenceStep) (data : CampaignSequenceStep) :
    ((∃ s ∈ steps, s.step_number = data.step_number) →
      create_sequence_step steps data = .error 400) ∧
    ((∀ s ∈ steps, s.step_number ≠ data.step_number) →
      create_sequence_step steps data = .ok (steps ++ [data])) ∧
    (∀ out, create_sequence_step steps data = .ok out →
      List.Pairwise (fun a b => a.step_number ≠ b.step_number) steps →
      List.Pairwise (fun a b => a.step_number ≠ b.step_number) out) := by
  refine ⟨?_, ?_, ?_⟩
  · rintro ⟨s, hs, hnum⟩
    unfold create_sequence_step get_step
    cases hfind : steps.find? (fun s => s.step_number == data.step_number) with
    | none =>
        rw [List.find?_eq_none] at hfind
        exact absurd (by simpa using hnum) (by simpa using hfind s hs)
    | some _ => rfl
  · intro hnone
    unfold create_sequence_step get_step
    cases hfind : steps.find? (fun s => s.step_number == data.step_number) with
    | none => rfl
    | some s =>
        have hmem := List.find?_some hfind
        have hin := List.mem_of_find?_eq_some hfind
        exact absurd (by simpa using hmem) (hnone s hin)
  · intro out hout hpw
    unfold create_sequence_step get_step at hout
    cases hfind : steps.find? (fun s => s.step_number == data.step_number) with
    | some s => rw [hfind] at hout; cases hout
    | none =>
        rw [hfind] at hout
        cases hout
        rw [List.find?_eq_none] at hfind
        rw [List.pairwise_append]
        refine ⟨hpw, by simp, ?_⟩
        intro a ha b hb
        have : b = data := by simpa using hb
        subst this
        simpa using hfind a ha

/-- Campaign with steps 1 and 2, both active, used to instantiate C10. -/
def demoStepsTwo : List CampaignSequenceStep :=
  [⟨1, "email", true⟩, ⟨2, "email", true⟩]

/-- C10 witness: inserting a second step numbered 2 into a campaign that
already has a step 2 is rejected with HTTP 400. -/
theorem C10_create_sequence_step_rejects_duplicates_witness :
    create_sequence_step demoStepsTwo ⟨2, "call", true⟩ = .error 400 :=
  (C10_create_sequence_step_rejects_duplicates demoStepsTwo
      ⟨2, "call", true⟩).1 ⟨⟨2, "email", true⟩, by decide, rfl⟩

/-! ### Leads -/

/-- Row of the `leads` table, restricted to the columns the lifecycle,
re-engagement and BANT claims read or write.  It carries both the
columns declared in src/app/models/lead.py (`current_sequence_step`,
`conversation_state`, ghost/re-engagement counters, the four BANT
sub-scores, `bant_overall_score`, `bant_qualification_status`) and the
supabase-facing BANT keys that src/app/schemas/lead.py reads and writes
(`bant_score`, `bant_status`, `bant_data` — the JSON map from category
to score is embedded as an association list). -/
structure LeadRecord where
  status : String
  lead_score : Int
  engagement_score : Int
  current_sequence_step : Int
  emails_sent : Int
  meetings_booked : Int
  is_unsubscribed : Bool
  do_not_contact : Bool
  conversation_state : String
  ai_last_response_at : Option Int
  sequence_paused_at_step : Option Int
  ghost_timeout_hours : Int
  re_engagement_count : Int
  max_re_engagements : Int
  bant_budget_score : Int
  bant_authority_score : Int
  bant_need_score : Int
  bant_timeline_score : Int
  bant_overall_score : Int
  bant_qualification_status : String
  bant_score : Int
  bant_status : String
  bant_data : List (String × Int)
  bant_sales_notes : Option String
  ai_notes : Option String
  deriving Repr, DecidableEq

/-- Column defaults of a freshly created lead
(src/app/models/lead.py and the defaults of `LeadResponse` in
src/app/schemas/lead.py): `status="new"`, step 0, state `in_sequence`,
ghost timeout 48h, re-engagement 0 of 5, every BANT score 0. -/
def newLead : LeadRecord :=
  { status := "new"
    lead_score := 0
    engagement_score := 0
    current_sequence_step := 0
    emails_sent := 0
    meetings_booked := 0
    is_unsubscribed := false
    do_not_contact := false
    conversation_state := "in_sequence"
    ai_last_response_at := none
    sequence_paused_at_step := none
    ghost_timeout_hours := 48
    re_engagement_count := 0
    max_re_engagements := 5
    bant_budget_score := 0
    bant_authority_score := 0
    bant_need_score := 0
    bant_timeline_score := 0
    bant_overall_score := 0
    bant_qualification_status := "unqualified"
    bant_score := 0
    bant_status := "unqualified"
    bant_data := []
    bant_sales_notes := none
    ai_notes := none }

/-- Payload of `LeadUpdate` (src/app/schemas/lead.py lines 46-85),
restricted to the fields relevant to the claims.  Every field is
optional; `LeadUpdate` has no field for `current_sequence_step`,
`emails_sent`, `meetings_booked`, the four BANT sub-scores or
`bant_overall_score`. -/
structure LeadUpdateData where
  status : Option String := none
  lead_score : Option Int := none
  engagement_score : Option Int := none
  ai_notes : Option String := none
  is_unsubscribed : Option Bool := none
  do_not_contact : Option Bool := none
  conversation_state : Option String := none
  ai_last_response_at : Option Int := none
  sequence_paused_at_step : Option Int := none
  ghost_timeout_hours : Option Int := none
  re_engagement_count : Option Int := none
  max_re_engagements : Option Int := none
  bant_score : Option Int := none
  bant_status : Option String := none
  bant_data : Option (List (String × Int)) := none
  bant_sales_notes : Option String := none
  deriving Repr, DecidableEq

/-- Embeds `LeadRepository.update` (src/app/repositories/lead.py lines
110-121): `model_dump(exclude_none=True)` keeps exactly the supplied
(`some`) fields and the row update overwrites each of them with the
supplied value, leaving every other column untouched.  There is no
guard, merge or running maximum of any kind. -/
def leadUpdateApply (lead : LeadRecord) (u : LeadUpdateData) : LeadRecord :=
  { lead with
    status := u.status.getD lead.status
    lead_score := u.lead_score.getD lead.lead_score
    engagement_score := u.engagement_score.getD lead.engagement_score
    ai_notes := (u.ai_notes.map some).getD lead.ai_notes
    is_unsubscribed := u.is_unsubscribed.getD lead.is_unsubscribed
    do_not_contact := u.do_not_contact.getD lead.do_not_contact
    conversation_state := u.conversation_state.getD lead.conversation_state
    ai_last_response_at :=
      (u.ai_last_response_at.map some).getD lead.ai_last_response_at
    sequence_paused_at_step :=
      (u.sequence_paused_at_step.map some).getD lead.sequence_paused_at_step
    ghost_timeout_hours := u.ghost_timeout_hours.getD lead.ghost_timeout_hours
    re_engagement_count := u.re_engagement_count.getD lead.re_engagement_count
    max_re_engagements := u.max_re_engagements.getD lead.max_re_engagements
    bant_score := u.bant_score.getD lead.bant_score
    bant_status := u.bant_status.getD lead.bant_status
    bant_data := u.bant_data.getD lead.bant_data
    bant_sales_notes := (u.bant_sales_notes.map some).getD lead.bant_sales_notes }

/-- Embeds the PATCH lead endpoint `update_lead`
(src/app/api/v1/leads.py lines 367-380): 404 when the lead is absent,
403 when it belongs to another tenant, otherwise the repository update is
applied unconditionally — the handler never inspects `do_not_contact`,
`is_unsubscribed` or `conversation_state`. -/
def update_lead (stored : Option (String × LeadRecord)) (tenant_id : String)
    (u : LeadUpdateData) : Except Nat LeadRecord :=
  match stored with
  | none => .error 404
  | some (t, lead) =>
      if t ≠ tenant_id then .error 403
      else .ok (leadUpdateApply lead u)

/-- Embeds the `Lead.can_re_engage` property (src/app/models/lead.py
lines 159-162): `re_engagement_count < (max_re_engagements or 5)` —
Python `or` replaces a zero (or null) maximum with 5, and the
conversation state is not consulted. -/
def can_re_engage (lead : LeadRecord) : Bool :=
  lead.re_engagement_count <
    (if lead.max_re_engagements = 0 then 5 else lead.max_re_engagements)

/-- Embeds `LeadRepository.increment_metric` at its only lead call site
(src/app/api/v1/leads.py line 464, metric `meetings_booked`). -/
def increment_meetings_booked (lead : LeadRecord) (amount : Int) : LeadRecord :=
  { lead with meetings_booked := lead.meetings_booked + amount }

/-! ### Claim C3 -/

/-- Lead whose stored BANT evidence has budget score 1, obtained by a
first conversation update. -/
def leadBudgetOne : LeadRecord :=
  leadUpdateApply newLead { bant_data := some [("budget", 1)] }

/-- C3 counterexample: after budget evidence scoring 1, a second update
carrying the weaker budget evidence 0 overwrites the stored BANT data —
the stored budget score regresses from 1 to 0 instead of remaining 1,
and the overall `bant_score` field regresses the same way. -/
theorem C3_counterexample :
    leadBudgetOne.bant_data = [("budget", 1)] ∧
    (leadUpdateApply leadBudgetOne
        { bant_data := some [("budget", 0)] }).bant_data = [("budget", 0)] ∧
    (leadUpdateApply (leadUpdateApply newLead { bant_score := some 1 })
        { bant_score := some 0 }).bant_score = 0 := by
  decide

/-- C3 amended: lead updates overwrite the stored BANT evidence with the
supplied value — a supplied `bant_data` map or `bant_score` replaces the
stored one entirely, with no running maximum, so weaker evidence
regresses the stored score; only fields omitted from the update are left
unchanged. -/
theorem C3_lead_update_overwrites_bant
    (lead : LeadRecord) (u : LeadUpdateData) :
    (leadUpdateApply lead u).bant_data =
      (match u.bant_data with
        | some d => d
        | none => lead.bant_data) ∧
    (leadUpdateApply lead u).bant_score =
      (match u.bant_score with
        | some n => n
        | none => lead.bant_score) := by
  cases hd : u.bant_data <;> cases hs : u.bant_score <;>
    simp [leadUpdateApply, hd, hs]

/-! ### Claim C4 -/

/-- Amounts stated by the spec invariant: the overall BANT score column
equals the sum of the four sub-score columns of the lead row. -/
def bantSumInvariant (lead : LeadRecord) : Prop :=
  lead.bant_overall_score =
    lead.bant_budget_score + lead.bant_authority_score +
      lead.bant_need_score + lead.bant_timeline_score

/-- C4: a freshly created lead satisfies `bant_overall_score` = sum of
the four sub-scores (all zero), and every lead operation in the
repository preserves the equality — `LeadUpdate` carries no field for
any of these five columns, and the metric increment touches only
`meetings_booked` — so the invariant holds at every state observable
through the engine's own operations, including after any sequence of
updates. -/
theorem C4_bant_overall_is_sum_invariant :
    bantSumInvariant newLead ∧
    (∀ lead u, bantSumInvariant lead → bantSumInvariant (leadUpdateApply lead u)) ∧
    (∀ lead amount, bantSumInvariant lead →
      bantSumInvariant (increment_meetings_booked lead amount)) ∧
    (∀ us : List LeadUpdateData,
      bantSumInvariant (us.foldl leadUpdateApply newLead)) := by
  have hupd : ∀ lead u, bantSumInvariant lead →
      bantSumInvariant (leadUpdateApply lead u) := by
    intro lead u h
    simpa [bantSumInvariant, leadUpdateApply] using h
  refine ⟨by simp [bantSumInvariant, newLead], hupd, ?_, ?_⟩
  · intro lead amount h
    simpa [bantSumInvariant, increment_meetings_booked] using h
  · intro us
    have : ∀ lead, bantSumInvariant lead →
        bantSumInvariant (us.foldl leadUpdateApply lead) := by
      induction us with
      | nil => intro lead h; simpa using h
      | cons u rest ih =>
          intro lead h
          exact ih (leadUpdateApply lead u) (hupd lead u h)
    exact this newLead (by simp [bantSumInvariant, newLead])

/-- C4 witness: even an update that writes the supabase-facing
`bant_score` key preserves the invariant over the model's overall and
sub-score columns, on a concrete fresh lead. -/
theorem C4_bant_overall_is_sum_invariant_witness :
    bantSumInvariant (leadUpdateApply newLead { bant_score := some 5 }) :=
  C4_bant_overall_is_sum_invariant.2.1 newLead { bant_score := some 5 }
    C4_bant_overall_is_sum_invariant.1

/-! ### Claim C5 -/

/-- Do-not-contact lead used to instantiate C5. -/
def dncLead : LeadRecord := { newLead with do_not_contact := true }

/-- Update payload that tries to mark the lead as awaiting a reply. -/
def awaitingReplyUpdate : LeadUpdateData :=
  { conversation_state := some "awaiting_reply", ai_last_response_at := some 500 }

/-- C5 counterexample: on a `do_not_contact` lead the PATCH endpoint does
not fail — it returns HTTP success with the update applied — and the
lead is changed (its conversation state becomes `awaiting_reply`), so no
`InvalidTransition` guard exists. -/
theorem C5_counterexample :
    update_lead (some ("t1", dncLead)) "t1" awaitingReplyUpdate =
      .ok (leadUpdateApply dncLead awaitingReplyUpdate) ∧
    (leadUpdateApply dncLead awaitingReplyUpdate).conversation_state =
      "awaiting_reply" ∧
    leadUpdateApply dncLead awaitingReplyUpdate ≠ dncLead := by
  refine ⟨by simp [update_lead], by decide, by decide⟩

/-- C5 amended: the lead-update endpoint applies the supplied fields to a
`do_not_contact` or unsubscribed lead exactly as to any other lead —
there is no `InvalidTransition` failure; `conversation_state` and
`ai_last_response_at` change only to explicitly supplied values (nothing
stamps the current time), and `current_sequence_step` is not updatable
through this endpoint at all, so it is always left unchanged. -/
theorem C5_update_lead_ignores_do_not_contact
    (tenant : String) (lead : LeadRecord) (u : LeadUpdateData)
    (_hblocked : lead.do_not_contact = true ∨ lead.is_unsubscribed = true) :
    update_lead (some (tenant, lead)) tenant u = .ok (leadUpdateApply lead u) ∧
    (leadUpdateApply lead u).current_sequence_step = lead.current_sequence_step ∧
    (leadUpdateApply lead u).conversation_state =
      (match u.conversation_state with
        | some s => s
        | none => lead.conversation_state) ∧
    (leadUpdateApply lead u).ai_last_response_at =
      (match u.ai_last_response_at with
        | some t => some t
        | none => lead.ai_last_response_at) := by
  refine ⟨by simp [update_lead], rfl, ?_, ?_⟩
  · cases h : u.conversation_state <;> simp [leadUpdateApply, h]
  · cases h : u.ai_last_response_at <;> simp [leadUpdateApply, h]

/-- C5 witness: instantiating the amended claim on the concrete
do-not-contact lead and the awaiting-reply payload. -/
theorem C5_update_lead_ignores_do_not_contact_witness :
    update_lead (some ("t1", dncLead)) "t1" awaitingReplyUpdate =
      .ok (leadUpdateApply dncLead awaitingReplyUpdate) ∧
    (leadUpdateApply dncLead awaitingReplyUpdate).current_sequence_step =
      dncLead.current_sequence_step :=
  have h := C5_update_lead_ignores_do_not_contact "t1" dncLead
    awaitingReplyUpdate (Or.inl rfl)
  ⟨h.1, h.2.1⟩

/-! ### Claim C6 -/

/-- C6 counterexample: a fresh lead is in `in_sequence`, not `ghosted`,
yet `can_re_engage` already reports true — the guard consults only the
counter; and the update endpoint raises the counter straight past
`max_re_engagements = 5` with no `ReEngagementExhausted` failure, so
re-engagement is neither restricted to ghosted leads nor bounded by the
maximum. -/
theorem C6_counterexample :
    can_re_engage newLead = true ∧
    newLead.conversation_state = "in_sequence" ∧
    newLead.conversation_state ≠ "ghosted" ∧
    (leadUpdateApply newLead { re_engagement_count := some 99 }).re_engagement_count
      = 99 := by
  decide

/-- C6 amended: `can_re_engage` is true exactly when
`re_engagement_count` is below `max_re_engagements` (a zero maximum is
replaced by the default 5); it never consults `conversation_state`, and
no operation enforces the bound — the update endpoint writes any supplied
`re_engagement_count` and `conversation_state` unconditionally. -/
theorem C6_can_re_engage_ignores_state (lead : LeadRecord) :
    (can_re_engage lead = true ↔
      lead.re_engagement_count <
        (if lead.max_re_engagements = 0 then 5 else lead.max_re_engagements)) ∧
    (can_re_engage lead =
      can_re_engage { lead with conversation_state := "ghosted" }) ∧
    (∀ u n, u.re_engagement_count = some n →
      (leadUpdateApply lead u).re_engagement_count = n) ∧
    (∀ u s, u.conversation_state = some s →
      (leadUpdateApply lead u).conversation_state = s) := by
  refine ⟨by simp [can_re_engage], rfl, ?_, ?_⟩
  · intro u n hn
    simp [leadUpdateApply, hn]
  · intro u s hs
    simp [leadUpdateApply, hs]

/-- C6 witness: on a fresh lead, the amended claim yields that an update
supplying `re_engagement_count = 6` (beyond the default maximum 5) is
stored as 6. -/
theorem C6_can_re_engage_ignores_state_witness :
    (leadUpdateApply newLead { re_engagement_count := some 6 }).re_engagement_count
      = 6 :=
  (C6_can_re_engage_ignores_state newLead).2.2.1
    { re_engagement_count := some 6 } 6 rfl
